import Mathlib

/-!
Shallow embedding of the Silo stereo-vision deepfake-detection core
(`config.py`, `Output/scorer.py`, `Comparison/error_calculator.py`,
`3D Estimation/triangulator.py`, `2. Calibration/stereo_calibrate.py`)
and proofs of the specified properties of its scoring, triangulation,
error aggregation and calibration gating logic.

Pixel coordinates and camera matrices are embedded over `ℚ` (the Python
code computes with floats; the properties under study are exact
arithmetic facts).  Euclidean errors, which involve square roots, live
in `ℝ`.
-/

namespace Silo

/-! ## Configuration constants (`config.py`) -/

/-- Reprojection error below this means likely real human (`config.REAL_HUMAN_THRESHOLD`). -/
def REAL_HUMAN_THRESHOLD : ℚ := 5

/-- Reprojection error above this means likely deepfake (`config.DEEPFAKE_THRESHOLD`). -/
def DEEPFAKE_THRESHOLD : ℚ := 15

/-- Lower confidence bound (`config.MIN_CONFIDENCE`). -/
def MIN_CONFIDENCE : ℚ := 0

/-- Upper confidence bound (`config.MAX_CONFIDENCE`). -/
def MAX_CONFIDENCE : ℚ := 100

/-- Confidence cutoff for the human/deepfake decision (`config.HUMAN_CONFIDENCE_CUTOFF`). -/
def HUMAN_CONFIDENCE_CUTOFF : ℚ := 70

/-- Minimum number of checkerboard images per camera (`config.MIN_CALIBRATION_IMAGES`). -/
def MIN_CALIBRATION_IMAGES : Nat := 10

/-! ## Confidence scoring (`config.calculate_confidence_score`, `config.is_deepfake`) -/

/-- Embedding of `np.clip(x, lo, hi)`: clamp `x` into `[lo, hi]`. -/
def np_clip (x lo hi : ℚ) : ℚ := min (max x lo) hi

/-- Embedding of `config.calculate_confidence_score`: piecewise assignment
(error below the real threshold gives max confidence, above the deepfake
threshold gives min confidence, linear interpolation in between), then
`np.clip` into `[MIN_CONFIDENCE, MAX_CONFIDENCE]`. -/
def calculate_confidence_score (mean_error : ℚ) : ℚ :=
  let confidence :=
    if mean_error < REAL_HUMAN_THRESHOLD then MAX_CONFIDENCE
    else if mean_error > DEEPFAKE_THRESHOLD then MIN_CONFIDENCE
    else
      let error_range := DEEPFAKE_THRESHOLD - REAL_HUMAN_THRESHOLD
      let normalized_error := (mean_error - REAL_HUMAN_THRESHOLD) / error_range
      MAX_CONFIDENCE - normalized_error * MAX_CONFIDENCE
  np_clip confidence MIN_CONFIDENCE MAX_CONFIDENCE

/-- Embedding of `config.is_deepfake`: strict comparison of the confidence
score with the cutoff. -/
def is_deepfake (confidence_score : ℚ) : Bool :=
  confidence_score < HUMAN_CONFIDENCE_CUTOFF

/-- Embedding of `DeepfakeScorer.determine_authenticity`, which delegates to
`config.is_deepfake`. -/
def determine_authenticity (confidence_score : ℚ) : Bool :=
  is_deepfake confidence_score

/-- Embedding of the decision made inside `DeepfakeScorer.generate_detection_result`:
the confidence score of the mean error, fed to `determine_authenticity`. -/
def scorer_decision (mean_error : ℚ) : Bool :=
  determine_authenticity (calculate_confidence_score mean_error)

/-! ## Geometry for the triangulator (`3D Estimation/triangulator.py`)

Points and camera matrices over `ℚ`. -/

/-- A 2-D pixel coordinate. -/
structure Vec2 where
  x : ℚ
  y : ℚ
deriving DecidableEq, Repr

/-- A 3-D point (meters). -/
structure Vec3 where
  x : ℚ
  y : ℚ
  z : ℚ
deriving DecidableEq, Repr

/-- A homogeneous 4-vector. -/
structure Vec4 where
  x : ℚ
  y : ℚ
  z : ℚ
  w : ℚ
deriving DecidableEq, Repr

/-- A 3×4 camera projection matrix (rows 1..3, columns 1..4). -/
structure Mat34 where
  m11 : ℚ
  m12 : ℚ
  m13 : ℚ
  m14 : ℚ
  m21 : ℚ
  m22 : ℚ
  m23 : ℚ
  m24 : ℚ
  m31 : ℚ
  m32 : ℚ
  m33 : ℚ
  m34 : ℚ
deriving DecidableEq, Repr

/-- The homogeneous divisor of projection: third row of `P` applied to
`(X, 1)` — the value `projected_homogeneous[:, 2]` that
`StereoTriangulator.project_3d_to_2d` divides by. -/
def homogeneousDivisor (P : Mat34) (X : Vec3) : ℚ :=
  P.m31 * X.x + P.m32 * X.y + P.m33 * X.z + P.m34

/-- Embedding of the per-point body of `StereoTriangulator.project_3d_to_2d`:
append a homogeneous 1, multiply by the 3×4 matrix, and divide the first two
coordinates by the third.  The division is unconditional, exactly as in the
source (`points_2d = projected_homogeneous[:, :2] / projected_homogeneous[:, 2:3]`). -/
def projectPoint (P : Mat34) (X : Vec3) : Vec2 :=
  let hx := P.m11 * X.x + P.m12 * X.y + P.m13 * X.z + P.m14
  let hy := P.m21 * X.x + P.m22 * X.y + P.m23 * X.z + P.m24
  let hw := homogeneousDivisor P X
  ⟨hx / hw, hy / hw⟩

/-- Embedding of `StereoTriangulator.project_3d_to_2d`: select the projection
matrix by the camera-name string (raising an invalid-camera error otherwise)
and project every point. -/
def project_3d_to_2d (P1 P2 : Mat34) (points_3d : List Vec3) (camera : String) :
    Except String (List Vec2) :=
  if camera = "cam1" then .ok (points_3d.map (projectPoint P1))
  else if camera = "cam2" then .ok (points_3d.map (projectPoint P2))
  else .error ("camera must be cam1 or cam2, got " ++ camera)

/-- Determinant of a 3×3 matrix given row-wise. -/
def det3 (a b c d e f g h i : ℚ) : ℚ :=
  a * (e * i - f * h) - b * (d * i - f * g) + c * (d * h - e * g)

/-- Generalized cross product of three 4-vectors: a vector orthogonal to all
three, with components the signed 3×3 minors. -/
def cross4 (a b c : Vec4) : Vec4 :=
  ⟨det3 a.y a.z a.w b.y b.z b.w c.y c.z c.w,
   -det3 a.x a.z a.w b.x b.z b.w c.x c.z c.w,
   det3 a.x a.y a.w b.x b.y b.w c.x c.y c.w,
   -det3 a.x a.y a.z b.x b.y b.z c.x c.y c.z⟩

/-- First DLT constraint row contributed by observing `p` in camera `P`:
`p.x * P_row3 - P_row1`. -/
def dltRow1 (P : Mat34) (p : Vec2) : Vec4 :=
  ⟨p.x * P.m31 - P.m11, p.x * P.m32 - P.m12, p.x * P.m33 - P.m13, p.x * P.m34 - P.m14⟩

/-- Second DLT constraint row contributed by observing `p` in camera `P`:
`p.y * P_row3 - P_row2`. -/
def dltRow2 (P : Mat34) (p : Vec2) : Vec4 :=
  ⟨p.y * P.m31 - P.m21, p.y * P.m32 - P.m22, p.y * P.m33 - P.m23, p.y * P.m34 - P.m24⟩

/-- Modelled from the spec: the homogeneous 4-vector output of
`cv2.triangulatePoints` (library code, not under `src/`), which the spec
describes as direct linear triangulation — homogeneous least-squares from
both projection matrices.  On exact (noise-free) data the least-squares
minimum is an exact null vector of the DLT constraint rows; it is computed
here as the generalized cross product of three of the four constraint rows. -/
def triangulateHomog (P1 P2 : Mat34) (p1 p2 : Vec2) : Vec4 :=
  cross4 (dltRow1 P1 p1) (dltRow2 P1 p1) (dltRow1 P2 p2)

/-- Per-point body of `StereoTriangulator.triangulate`: the homogeneous
4-vector from the DLT solve, divided unconditionally by its last coordinate
(`points_3d = points_4d_homogeneous[:3, :] / points_4d_homogeneous[3, :]`). -/
def triangulatePoint (P1 P2 : Mat34) (p1 p2 : Vec2) : Vec3 :=
  let v := triangulateHomog P1 P2 p1 p2
  ⟨v.x / v.w, v.y / v.w, v.z / v.w⟩

/-- Embedding of `StereoTriangulator.triangulate` on the `undistort=False`
path (undistortion is `cv2.undistortPoints`, library code; with zero
distortion coefficients it is the identity): raise on a landmark-count
mismatch, otherwise triangulate each corresponding pair. -/
def triangulate (P1 P2 : Mat34) (landmarks_cam1 landmarks_cam2 : List Vec2) :
    Except String (List Vec3) :=
  if landmarks_cam1.length ≠ landmarks_cam2.length then
    .error ("Landmark count mismatch: cam1=" ++ toString landmarks_cam1.length ++
      ", cam2=" ++ toString landmarks_cam2.length)
  else
    .ok (List.zipWith (triangulatePoint P1 P2) landmarks_cam1 landmarks_cam2)

/-! ## Error calculator (`Comparison/error_calculator.py`)

Per-landmark Euclidean errors involve square roots and live in `ℝ`. -/

/-- Per-point Euclidean distance, the row-wise
`np.linalg.norm(observed - reprojected, axis=1)` of
`ReprojectionErrorCalculator.calculate_per_landmark_error`. -/
noncomputable def landmark_error (o r : Vec2) : ℝ :=
  Real.sqrt (((o.x : ℝ) - (r.x : ℝ)) ^ 2 + ((o.y : ℝ) - (r.y : ℝ)) ^ 2)

/-- Embedding of `ReprojectionErrorCalculator.calculate_per_landmark_error`:
raise on a shape mismatch, otherwise the list of per-point Euclidean
distances. -/
noncomputable def calculate_per_landmark_error (observed reprojected : List Vec2) :
    Except String (List ℝ) :=
  if observed.length ≠ reprojected.length then
    .error ("Shape mismatch: observed=" ++ toString observed.length ++
      ", reprojected=" ++ toString reprojected.length)
  else
    .ok (List.zipWith landmark_error observed reprojected)

/-- Arithmetic mean of a list, as `np.mean`. -/
noncomputable def listMean (xs : List ℝ) : ℝ := xs.sum / xs.length

/-- Population standard deviation of a list, as `np.std`:
square root of the mean squared deviation from the mean. -/
noncomputable def listStd (xs : List ℝ) : ℝ :=
  Real.sqrt (listMean (xs.map (fun x => (x - listMean xs) ^ 2)))

/-- Minimum of a list, as `np.min` on a nonempty array. -/
noncomputable def listMin : List ℝ → ℝ
  | [] => 0
  | h :: t => t.foldl min h

/-- Maximum of a list, as `np.max` on a nonempty array. -/
noncomputable def listMax : List ℝ → ℝ
  | [] => 0
  | h :: t => t.foldl max h

/-- The statistics dictionary returned by
`ReprojectionErrorCalculator.calculate_mean_error`. -/
structure ErrorStats where
  mean_error : ℝ
  std_error : ℝ
  min_error : ℝ
  max_error : ℝ
  cam1_mean : ℝ
  cam2_mean : ℝ
  errors_cam1 : List ℝ
  errors_cam2 : List ℝ
  n_landmarks : Nat

/-- Embedding of `ReprojectionErrorCalculator.calculate_mean_error`: per-view
per-landmark errors, their concatenation `all_errors`, and the statistics
taken over the concatenation (the per-view means over each view alone);
`n_landmarks` is `len(errors_cam1)`. -/
noncomputable def calculate_mean_error (observed_cam1 reprojected_cam1
    observed_cam2 reprojected_cam2 : List Vec2) : Except String ErrorStats :=
  match calculate_per_landmark_error observed_cam1 reprojected_cam1 with
  | .error e => .error e
  | .ok errors_cam1 =>
    match calculate_per_landmark_error observed_cam2 reprojected_cam2 with
    | .error e => .error e
    | .ok errors_cam2 =>
      let all_errors := errors_cam1 ++ errors_cam2
      .ok { mean_error := listMean all_errors
            std_error := listStd all_errors
            min_error := listMin all_errors
            max_error := listMax all_errors
            cam1_mean := listMean errors_cam1
            cam2_mean := listMean errors_cam2
            errors_cam1 := errors_cam1
            errors_cam2 := errors_cam2
            n_landmarks := errors_cam1.length }

/-! ## Calibration gating (`2. Calibration/stereo_calibrate.py`)

The numeric solvers (`cv2.calibrateCamera`, `cv2.stereoCalibrate`) are
library code; the claims concern the repository's own bookkeeping: which
image indices had a successful checkerboard detection, and the
insufficient-data / synchronization gates.  A calibration input is embedded
as the list of per-image detection outcomes (`true` when
`find_checkerboard_corners` succeeded at that index). -/

/-- The `valid_indices` accumulated by `StereoCalibrator.calibrate_single_camera`:
the image indices at which checkerboard detection succeeded, in order. -/
def valid_indices (detections : List Bool) : List Nat :=
  (List.range detections.length).filter (fun i => detections.getD i false)

/-- Embedding of the gating logic of `StereoCalibrator.calibrate_single_camera`:
raise the insufficient-data error (naming the camera and both counts) when
fewer than `MIN_CALIBRATION_IMAGES` detections succeeded; otherwise return
the valid indices (the solver output of `cv2.calibrateCamera` is library
code and not needed by the claims). -/
def calibrate_single_camera (detections : List Bool) (camera_name : String) :
    Except String (List Nat) :=
  let valid := valid_indices detections
  if valid.length < MIN_CALIBRATION_IMAGES then
    .error ("Not enough valid calibration images for " ++ camera_name ++
      ". Found " ++ toString valid.length ++ ", need at least " ++
      toString MIN_CALIBRATION_IMAGES)
  else
    .ok valid

/-- The `common_indices` of `StereoCalibrator.calibrate_stereo`:
`sorted(set(valid_idx1) & set(valid_idx2))`.  `valid_indices` is already
sorted and duplicate-free, so the sorted set intersection is the sublist of
the first camera's valid indices that also belong to the second's. -/
def common_indices (detections1 detections2 : List Bool) : List Nat :=
  (valid_indices detections1).filter (fun i => (valid_indices detections2).contains i)

/-- The part of the persisted stereo calibration record the claims are
about: the synchronized indices handed to `cv2.stereoCalibrate` (the solved
camera matrices are library output). -/
structure StereoCalibration where
  common : List Nat

/-- Embedding of the control flow of `StereoCalibrator.calibrate_stereo`:
equal image-list lengths, both single-camera calibrations, the intersection
of their valid indices, and the synchronization gate on its size. -/
def calibrate_stereo (detections1 detections2 : List Bool) :
    Except String StereoCalibration :=
  if detections1.length ≠ detections2.length then
    .error "Camera 1 and Camera 2 must have same number of images"
  else
    match calibrate_single_camera detections1 "Camera 1 (Front)" with
    | .error e => .error e
    | .ok _ =>
      match calibrate_single_camera detections2 "Camera 2 (Side)" with
      | .error e => .error e
      | .ok _ =>
        let common := common_indices detections1 detections2
        if common.length < MIN_CALIBRATION_IMAGES then
          .error ("Not enough synchronized pairs for stereo calibration. Found " ++
            toString common.length ++ ", need at least " ++
            toString MIN_CALIBRATION_IMAGES)
        else
          .ok ⟨common⟩

/-! ### Value lemmas for `calculate_confidence_score` -/

/-- On errors at most the real threshold the score is the maximum. -/
lemma conf_low {e : ℚ} (h : e ≤ 5) : calculate_confidence_score e = 100 := by
  simp only [calculate_confidence_score, np_clip, REAL_HUMAN_THRESHOLD,
    DEEPFAKE_THRESHOLD, MIN_CONFIDENCE, MAX_CONFIDENCE]
  split_ifs with h1 h2
  · norm_num
  · linarith
  · have he : e = 5 := le_antisymm h (not_lt.mp h1)
    subst he
    norm_num

/-- Between the thresholds the score is the linear map `150 - 10 e`. -/
lemma conf_mid {e : ℚ} (h1 : 5 ≤ e) (h2 : e ≤ 15) :
    calculate_confidence_score e = 150 - 10 * e := by
  simp only [calculate_confidence_score, np_clip, REAL_HUMAN_THRESHOLD,
    DEEPFAKE_THRESHOLD, MIN_CONFIDENCE, MAX_CONFIDENCE]
  split_ifs with ha hb
  · linarith
  · linarith
  · have hv : 100 - (e - 5) / (15 - 5) * 100 = 150 - 10 * e := by ring
    rw [hv, max_eq_left (by linarith), min_eq_left (by linarith)]

/-- On errors at least the deepfake threshold the score is the minimum. -/
lemma conf_high {e : ℚ} (h : 15 ≤ e) : calculate_confidence_score e = 0 := by
  simp only [calculate_confidence_score, np_clip, REAL_HUMAN_THRESHOLD,
    DEEPFAKE_THRESHOLD, MIN_CONFIDENCE, MAX_CONFIDENCE]
  split_ifs with ha hb
  · linarith
  · norm_num
  · have he : e = 15 := le_antisymm (not_lt.mp hb) h
    subst he
    norm_num

/-- The clipped score always lies in `[0, 100]`. -/
lemma conf_bounds (e : ℚ) :
    0 ≤ calculate_confidence_score e ∧ calculate_confidence_score e ≤ 100 := by
  simp only [calculate_confidence_score, np_clip, MIN_CONFIDENCE, MAX_CONFIDENCE]
  constructor
  · exact le_min (le_max_right _ _) (by norm_num)
  · exact min_le_right _ _

/-- The score is monotone non-increasing in the error. -/
lemma conf_antitone {e₁ e₂ : ℚ} (h : e₁ ≤ e₂) :
    calculate_confidence_score e₂ ≤ calculate_confidence_score e₁ := by
  by_cases h2 : e₂ ≤ 5
  · rw [conf_low h2, conf_low (le_trans h h2)]
  · by_cases h15 : 15 ≤ e₂
    · rw [conf_high h15]
      exact (conf_bounds e₁).1
    · push_neg at h2 h15
      rw [conf_mid (le_of_lt h2) (le_of_lt h15)]
      by_cases h1 : e₁ ≤ 5
      · rw [conf_low h1]; linarith
      · push_neg at h1
        rw [conf_mid (le_of_lt h1) (le_trans h (le_of_lt h15))]
        linarith

/-! ## Claim theorems for the scorer -/

/-- C1: `calculate_confidence_score` maps errors at most the real threshold
(5.0) to 100, errors at least the deepfake threshold (15.0) to 0, linearly
interpolates in between via `100 * (1 - (e - 5)/(15 - 5))`, satisfies the
anchor values at 0, 5, 10, is monotone non-increasing, and always stays
within `[0, 100]`. -/
theorem C1_confidence_curve :
    (∀ e : ℚ, e ≤ 5 → calculate_confidence_score e = 100) ∧
    (∀ e : ℚ, 15 ≤ e → calculate_confidence_score e = 0) ∧
    (∀ e : ℚ, 5 ≤ e → e ≤ 15 →
      calculate_confidence_score e = 100 * (1 - (e - 5) / (15 - 5))) ∧
    calculate_confidence_score 0 = 100 ∧
    calculate_confidence_score 5 = 100 ∧
    calculate_confidence_score 10 = 50 ∧
    (∀ e₁ e₂ : ℚ, e₁ ≤ e₂ →
      calculate_confidence_score e₂ ≤ calculate_confidence_score e₁) ∧
    (∀ e : ℚ, 0 ≤ calculate_confidence_score e ∧ calculate_confidence_score e ≤ 100) := by
  refine ⟨fun e h => conf_low h, fun e h => conf_high h, fun e h1 h2 => ?_,
    conf_low (by norm_num), conf_low (by norm_num), ?_,
    fun e₁ e₂ h => conf_antitone h, conf_bounds⟩
  · rw [conf_mid h1 h2]; ring
  · rw [conf_mid (by norm_num) (by norm_num)]; norm_num

/-- C2: the classification is is-deepfake exactly when the confidence is
strictly below the cutoff 70; at exactly 70 the subject is classified as a
real human; the scorer's `determine_authenticity` coincides with
`config.is_deepfake`. -/
theorem C2_classify_strict_cutoff :
    (∀ c : ℚ, is_deepfake c = true ↔ c < 70) ∧
    is_deepfake 70 = false ∧
    (∀ c : ℚ, determine_authenticity c = is_deepfake c) := by
  refine ⟨fun c => ?_, ?_, fun c => rfl⟩
  · simp [is_deepfake, HUMAN_CONFIDENCE_CUTOFF]
  · simp [is_deepfake, HUMAN_CONFIDENCE_CUTOFF]

/-- C9: with the default thresholds, the composed decision of
`generate_detection_result` (confidence of the mean error, then the strict
cutoff comparison) is equivalent to the single comparison
`mean_error > 8.0`; in particular a mean error of exactly 8.0 (confidence
exactly 70) is classified real-human. -/
theorem C9_composed_decision_eq_gt8 :
    ∀ e : ℚ, scorer_decision e = decide (8 < e) := by
  intro e
  simp only [scorer_decision, determine_authenticity, is_deepfake,
    HUMAN_CONFIDENCE_CUTOFF]
  by_cases h5 : e ≤ 5
  · rw [conf_low h5]
    have : ¬ (8 : ℚ) < e := by linarith
    simp [this]
    norm_num
  · by_cases h15 : 15 ≤ e
    · rw [conf_high h15]
      have : (8 : ℚ) < e := by linarith
      simp [this]
    · push_neg at h5 h15
      rw [conf_mid (le_of_lt h5) (le_of_lt h15)]
      by_cases h8 : 8 < e
      · have : (150 : ℚ) - 10 * e < 70 := by linarith
        simp [this, h8]
      · have : ¬ ((150 : ℚ) - 10 * e < 70) := by push_neg at h8 ⊢; linarith
        simp [this, h8]

/-! ## Triangulation round trip -/

/-- The generalized cross product of three 4-vectors that all annihilate
`(x, y, z, 1)` is itself a multiple of `(x, y, z, 1)` — the one-dimensional
null-space fact behind exact DLT triangulation. -/
lemma cross4_null_vector (a b c : Vec4) (x y z : ℚ)
    (ha : a.x * x + a.y * y + a.z * z + a.w = 0)
    (hb : b.x * x + b.y * y + b.z * z + b.w = 0)
    (hc : c.x * x + c.y * y + c.z * z + c.w = 0) :
    (cross4 a b c).x = (cross4 a b c).w * x ∧
    (cross4 a b c).y = (cross4 a b c).w * y ∧
    (cross4 a b c).z = (cross4 a b c).w * z := by
  obtain ⟨a1, a2, a3, a4⟩ := a
  obtain ⟨b1, b2, b3, b4⟩ := b
  obtain ⟨c1, c2, c3, c4⟩ := c
  simp only [cross4, det3] at *
  have h4a : a4 = -(a1 * x + a2 * y + a3 * z) := by linarith
  have h4b : b4 = -(b1 * x + b2 * y + b3 * z) := by linarith
  have h4c : c4 = -(c1 * x + c2 * y + c3 * z) := by linarith
  subst h4a h4b h4c
  refine ⟨by ring, by ring, by ring⟩

/-- A noise-free observation annihilates its first DLT row. -/
lemma dltRow1_dot (P : Mat34) (X : Vec3) (h : homogeneousDivisor P X ≠ 0) :
    (dltRow1 P (projectPoint P X)).x * X.x + (dltRow1 P (projectPoint P X)).y * X.y +
    (dltRow1 P (projectPoint P X)).z * X.z + (dltRow1 P (projectPoint P X)).w = 0 := by
  simp only [dltRow1, projectPoint, homogeneousDivisor] at *
  field_simp
  ring

/-- A noise-free observation annihilates its second DLT row. -/
lemma dltRow2_dot (P : Mat34) (X : Vec3) (h : homogeneousDivisor P X ≠ 0) :
    (dltRow2 P (projectPoint P X)).x * X.x + (dltRow2 P (projectPoint P X)).y * X.y +
    (dltRow2 P (projectPoint P X)).z * X.z + (dltRow2 P (projectPoint P X)).w = 0 := by
  simp only [dltRow2, projectPoint, homogeneousDivisor] at *
  field_simp
  ring

/-- Exact recovery: triangulating the noise-free projections of a
non-degenerate 3-D point returns that point exactly. -/
lemma triangulatePoint_exact (P1 P2 : Mat34) (X : Vec3)
    (h1 : homogeneousDivisor P1 X ≠ 0) (h2 : homogeneousDivisor P2 X ≠ 0)
    (hw : (triangulateHomog P1 P2 (projectPoint P1 X) (projectPoint P2 X)).w ≠ 0) :
    triangulatePoint P1 P2 (projectPoint P1 X) (projectPoint P2 X) = X := by
  obtain ⟨cx, cy, cz⟩ := cross4_null_vector (dltRow1 P1 (projectPoint P1 X))
    (dltRow2 P1 (projectPoint P1 X)) (dltRow1 P2 (projectPoint P2 X))
    X.x X.y X.z (dltRow1_dot P1 X h1) (dltRow2_dot P1 X h1) (dltRow1_dot P2 X h2)
  simp only [triangulateHomog] at hw
  obtain ⟨x0, y0, z0⟩ := X
  simp only [triangulatePoint, triangulateHomog, Vec3.mk.injEq]
  rw [cx, cy, cz]
  exact ⟨mul_div_cancel_left₀ _ hw, mul_div_cancel_left₀ _ hw, mul_div_cancel_left₀ _ hw⟩

/-- Triangulating the pointwise projections of a list of non-degenerate
points recovers the list. -/
lemma zipWith_triangulate_exact (P1 P2 : Mat34) (Xs : List Vec3)
    (h : ∀ X ∈ Xs, homogeneousDivisor P1 X ≠ 0 ∧ homogeneousDivisor P2 X ≠ 0 ∧
      (triangulateHomog P1 P2 (projectPoint P1 X) (projectPoint P2 X)).w ≠ 0) :
    List.zipWith (triangulatePoint P1 P2) (Xs.map (projectPoint P1))
      (Xs.map (projectPoint P2)) = Xs := by
  induction Xs with
  | nil => rfl
  | cons X t ih =>
    have hX := h X (List.mem_cons_self X t)
    simp only [List.map_cons, List.zipWith_cons_cons]
    rw [triangulatePoint_exact P1 P2 X hX.1 hX.2.1 hX.2.2,
      ih (fun Y hY => h Y (List.mem_cons_of_mem X hY))]

/-- C3: round-trip law.  For every list of 3-D points that is
non-degenerate for a calibration (nonzero homogeneous divisors in both
cameras and a nonzero homogeneous coordinate in the DLT solve),
triangulating the two noise-free projected point lists returns exactly the
original points, and projecting those triangulated points through either
camera reproduces the corresponding input list exactly (zero pixel error,
hence within any tolerance). -/
theorem C3_triangulate_project_roundtrip (P1 P2 : Mat34) (Xs : List Vec3)
    (h : ∀ X ∈ Xs, homogeneousDivisor P1 X ≠ 0 ∧ homogeneousDivisor P2 X ≠ 0 ∧
      (triangulateHomog P1 P2 (projectPoint P1 X) (projectPoint P2 X)).w ≠ 0) :
    triangulate P1 P2 (Xs.map (projectPoint P1)) (Xs.map (projectPoint P2)) =
      Except.ok Xs ∧
    project_3d_to_2d P1 P2 Xs "cam1" = Except.ok (Xs.map (projectPoint P1)) ∧
    project_3d_to_2d P1 P2 Xs "cam2" = Except.ok (Xs.map (projectPoint P2)) := by
  refine ⟨?_, rfl, rfl⟩
  simp only [triangulate, List.length_map, ne_eq, not_true_eq_false, if_false]
  rw [zipWith_triangulate_exact P1 P2 Xs h]

/-- Witness for C3 at a concrete calibration (`P1 = [I|0]`,
`P2 = [I|(1,0,0)]`) and the point `(0, 0, 1)`. -/
theorem C3_triangulate_project_roundtrip_witness :
    triangulate ⟨1, 0, 0, 0, 0, 1, 0, 0, 0, 0, 1, 0⟩ ⟨1, 0, 0, 1, 0, 1, 0, 0, 0, 0, 1, 0⟩
        ([Vec3.mk 0 0 1].map (projectPoint ⟨1, 0, 0, 0, 0, 1, 0, 0, 0, 0, 1, 0⟩))
        ([Vec3.mk 0 0 1].map (projectPoint ⟨1, 0, 0, 1, 0, 1, 0, 0, 0, 0, 1, 0⟩)) =
      Except.ok [Vec3.mk 0 0 1] ∧
    project_3d_to_2d ⟨1, 0, 0, 0, 0, 1, 0, 0, 0, 0, 1, 0⟩
        ⟨1, 0, 0, 1, 0, 1, 0, 0, 0, 0, 1, 0⟩ [Vec3.mk 0 0 1] "cam1" =
      Except.ok ([Vec3.mk 0 0 1].map (projectPoint ⟨1, 0, 0, 0, 0, 1, 0, 0, 0, 0, 1, 0⟩)) ∧
    project_3d_to_2d ⟨1, 0, 0, 0, 0, 1, 0, 0, 0, 0, 1, 0⟩
        ⟨1, 0, 0, 1, 0, 1, 0, 0, 0, 0, 1, 0⟩ [Vec3.mk 0 0 1] "cam2" =
      Except.ok ([Vec3.mk 0 0 1].map (projectPoint ⟨1, 0, 0, 1, 0, 1, 0, 0, 0, 0, 1, 0⟩)) :=
  C3_triangulate_project_roundtrip _ _ _ (by
    intro X hX
    simp only [List.mem_singleton] at hX
    subst hX
    refine ⟨by norm_num [homogeneousDivisor], by norm_num [homogeneousDivisor], ?_⟩
    norm_num [triangulateHomog, cross4, det3, dltRow1, dltRow2, projectPoint,
      homogeneousDivisor])

/-! ## Degenerate homogeneous divisors -/

/-- C4 (evaluation at the failing input): projection never detects a
degenerate divisor — for every input with a valid camera selector it
returns plainly projected points, and at a concrete point whose homogeneous
divisor is the near-zero value `10⁻⁹` it silently returns the huge finite
coordinates `(10⁹, 2·10⁹)` instead of a sentinel or failure. -/
theorem C4_near_zero_divisor_not_detected :
    (∀ (P1 P2 : Mat34) (pts : List Vec3),
      project_3d_to_2d P1 P2 pts "cam1" = Except.ok (pts.map (projectPoint P1)) ∧
      project_3d_to_2d P1 P2 pts "cam2" = Except.ok (pts.map (projectPoint P2))) ∧
    homogeneousDivisor ⟨1, 0, 0, 0, 0, 1, 0, 0, 0, 0, 1, 0⟩
      ⟨1, 2, 1 / 1000000000⟩ = 1 / 1000000000 ∧
    (0 : ℚ) < 1 / 1000000000 ∧ (1 : ℚ) / 1000000000 < 1 / 1000000 ∧
    projectPoint ⟨1, 0, 0, 0, 0, 1, 0, 0, 0, 0, 1, 0⟩ ⟨1, 2, 1 / 1000000000⟩ =
      ⟨1000000000, 2000000000⟩ := by
  refine ⟨fun P1 P2 pts => ⟨rfl, rfl⟩, by norm_num [homogeneousDivisor],
    by norm_num, by norm_num, ?_⟩
  simp only [projectPoint, homogeneousDivisor, Vec2.mk.injEq]
  norm_num

/-! ## Shape-mismatch failures -/

/-- C5: on any two input lists of different lengths, `triangulate` and
`calculate_per_landmark_error` both fail with their shape-mismatch error
(naming both lengths) and never return a result list. -/
theorem C5_shape_mismatch_raises (P1 P2 : Mat34) (a b o r : List Vec2)
    (hab : a.length ≠ b.length) (hor : o.length ≠ r.length) :
    triangulate P1 P2 a b =
      Except.error ("Landmark count mismatch: cam1=" ++ toString a.length ++
        ", cam2=" ++ toString b.length) ∧
    (∀ res, triangulate P1 P2 a b ≠ Except.ok res) ∧
    calculate_per_landmark_error o r =
      Except.error ("Shape mismatch: observed=" ++ toString o.length ++
        ", reprojected=" ++ toString r.length) ∧
    (∀ res, calculate_per_landmark_error o r ≠ Except.ok res) := by
  have ht : triangulate P1 P2 a b =
      Except.error ("Landmark count mismatch: cam1=" ++ toString a.length ++
        ", cam2=" ++ toString b.length) := by
    simp only [triangulate, if_pos hab]
  have hp : calculate_per_landmark_error o r =
      Except.error ("Shape mismatch: observed=" ++ toString o.length ++
        ", reprojected=" ++ toString r.length) := by
    simp only [calculate_per_landmark_error, if_pos hor]
  refine ⟨ht, fun res hres => ?_, hp, fun res hres => ?_⟩
  · rw [ht] at hres; exact Except.noConfusion hres
  · rw [hp] at hres; exact Except.noConfusion hres

/-- Witness for C5 at one point versus an empty list. -/
theorem C5_shape_mismatch_raises_witness :
    triangulate ⟨1, 0, 0, 0, 0, 1, 0, 0, 0, 0, 1, 0⟩ ⟨1, 0, 0, 0, 0, 1, 0, 0, 0, 0, 1, 0⟩
        [Vec2.mk 0 0] [] =
      Except.error ("Landmark count mismatch: cam1=" ++ toString (1 : Nat) ++
        ", cam2=" ++ toString (0 : Nat)) ∧
    (∀ res, triangulate ⟨1, 0, 0, 0, 0, 1, 0, 0, 0, 0, 1, 0⟩
        ⟨1, 0, 0, 0, 0, 1, 0, 0, 0, 0, 1, 0⟩ [Vec2.mk 0 0] [] ≠ Except.ok res) ∧
    calculate_per_landmark_error [Vec2.mk 0 0] [] =
      Except.error ("Shape mismatch: observed=" ++ toString (1 : Nat) ++
        ", reprojected=" ++ toString (0 : Nat)) ∧
    (∀ res, calculate_per_landmark_error [Vec2.mk 0 0] [] ≠ Except.ok res) :=
  C5_shape_mismatch_raises _ _ _ _ _ _ (by decide) (by decide)

/-! ## Calibration gates -/

/-- An index is among a camera's valid indices exactly when its detection
succeeded. -/
lemma mem_valid_indices {dets : List Bool} {i : Nat} :
    i ∈ valid_indices dets ↔ dets.getD i false = true := by
  simp only [valid_indices, List.mem_filter, List.mem_range]
  constructor
  · rintro ⟨_, h⟩
    exact h
  · intro h
    refine ⟨?_, h⟩
    by_contra hlt
    push_neg at hlt
    rw [List.getD_eq_default _ _ hlt] at h
    exact Bool.noConfusion h

/-- The valid indices are strictly increasing. -/
lemma valid_indices_sorted (dets : List Bool) :
    (valid_indices dets).Sorted (· < ·) :=
  List.Pairwise.sublist (List.filter_sublist _) (List.pairwise_lt_range _)

/-- C6: a camera with fewer than `MIN_CALIBRATION_IMAGES` successful
detections makes `calibrate_single_camera` fail with the insufficient-data
error naming the camera and both counts, and `calibrate_stereo` can then
never produce a `StereoCalibration` with that camera on either side. -/
theorem C6_insufficient_detections_fail (dets : List Bool) (name : String)
    (h : (valid_indices dets).length < MIN_CALIBRATION_IMAGES) :
    calibrate_single_camera dets name =
      Except.error ("Not enough valid calibration images for " ++ name ++
        ". Found " ++ toString (valid_indices dets).length ++ ", need at least " ++
        toString MIN_CALIBRATION_IMAGES) ∧
    (∀ other cal, calibrate_stereo dets other ≠ Except.ok cal) ∧
    (∀ other cal, calibrate_stereo other dets ≠ Except.ok cal) := by
  have herr : ∀ nm : String, calibrate_single_camera dets nm =
      Except.error ("Not enough valid calibration images for " ++ nm ++
        ". Found " ++ toString (valid_indices dets).length ++ ", need at least " ++
        toString MIN_CALIBRATION_IMAGES) := by
    intro nm
    simp only [calibrate_single_camera, if_pos h]
  refine ⟨herr name, fun other cal hok => ?_, fun other cal hok => ?_⟩
  · simp only [calibrate_stereo, herr "Camera 1 (Front)"] at hok
    split_ifs at hok
  · simp only [calibrate_stereo, herr "Camera 2 (Side)"] at hok
    split_ifs at hok
    cases h1 : calibrate_single_camera other "Camera 1 (Front)" with
    | error e => rw [h1] at hok; exact Except.noConfusion hok
    | ok v => rw [h1] at hok; exact Except.noConfusion hok

/-- Witness for C6: five detections among twelve images. -/
theorem C6_insufficient_detections_fail_witness :
    calibrate_single_camera
        [true, true, true, true, true, false, false, false, false, false, false, false]
        "Camera 1 (Front)" =
      Except.error ("Not enough valid calibration images for Camera 1 (Front)" ++
        ". Found " ++ toString (valid_indices
          [true, true, true, true, true, false, false, false, false, false, false, false]).length ++
        ", need at least " ++ toString MIN_CALIBRATION_IMAGES) ∧
    (∀ other cal, calibrate_stereo
        [true, true, true, true, true, false, false, false, false, false, false, false]
        other ≠ Except.ok cal) ∧
    (∀ other cal, calibrate_stereo other
        [true, true, true, true, true, false, false, false, false, false, false, false] ≠
      Except.ok cal) :=
  C6_insufficient_detections_fail _ "Camera 1 (Front)" (by decide)

/-- C7: the synchronized indices of `calibrate_stereo` are exactly the
set intersection of the two cameras' successful detection indices (sorted,
duplicate-free), and when both single-camera gates pass but the
intersection is smaller than `MIN_CALIBRATION_IMAGES`, stereo calibration
fails with the synchronization error instead of proceeding. -/
theorem C7_synchronization_gate (d1 d2 : List Bool)
    (hlen : d1.length = d2.length)
    (h1 : MIN_CALIBRATION_IMAGES ≤ (valid_indices d1).length)
    (h2 : MIN_CALIBRATION_IMAGES ≤ (valid_indices d2).length)
    (hc : (common_indices d1 d2).length < MIN_CALIBRATION_IMAGES) :
    (∀ i, i ∈ common_indices d1 d2 ↔
      (d1.getD i false = true ∧ d2.getD i false = true)) ∧
    (common_indices d1 d2).Sorted (· < ·) ∧
    (common_indices d1 d2).Nodup ∧
    calibrate_stereo d1 d2 =
      Except.error ("Not enough synchronized pairs for stereo calibration. Found " ++
        toString (common_indices d1 d2).length ++ ", need at least " ++
        toString MIN_CALIBRATION_IMAGES) := by
  have hsorted : (common_indices d1 d2).Sorted (· < ·) :=
    List.Pairwise.sublist (List.filter_sublist _) (valid_indices_sorted d1)
  refine ⟨fun i => ?_, hsorted, hsorted.nodup, ?_⟩
  · simp only [common_indices, List.mem_filter, List.elem_iff,
      decide_eq_true_eq, mem_valid_indices]
  · have hs1 : calibrate_single_camera d1 "Camera 1 (Front)" =
        Except.ok (valid_indices d1) := by
      simp only [calibrate_single_camera, if_neg (not_lt.mpr h1)]
    have hs2 : calibrate_single_camera d2 "Camera 2 (Side)" =
        Except.ok (valid_indices d2) := by
      simp only [calibrate_single_camera, if_neg (not_lt.mpr h2)]
    simp only [calibrate_stereo, hlen, ne_eq, not_true_eq_false, if_false, hs1, hs2,
      if_pos hc]

/-- Witness for C7: ten detections per camera, but only five synchronized. -/
theorem C7_synchronization_gate_witness :
    (∀ i, i ∈ common_indices
        [true, true, true, true, true, true, true, true, true, true,
         false, false, false, false, false, false, false, false, false, false]
        [false, false, false, false, false, true, true, true, true, true,
         true, true, true, true, true, true, true, true, true, true] ↔
      ([true, true, true, true, true, true, true, true, true, true,
        false, false, false, false, false, false, false, false, false, false].getD i false = true ∧
       [false, false, false, false, false, true, true, true, true, true,
        true, true, true, true, true, true, true, true, true, true].getD i false = true)) ∧
    (common_indices
        [true, true, true, true, true, true, true, true, true, true,
         false, false, false, false, false, false, false, false, false, false]
        [false, false, false, false, false, true, true, true, true, true,
         true, true, true, true, true, true, true, true, true, true]).Sorted (· < ·) ∧
    (common_indices
        [true, true, true, true, true, true, true, true, true, true,
         false, false, false, false, false, false, false, false, false, false]
        [false, false, false, false, false, true, true, true, true, true,
         true, true, true, true, true, true, true, true, true, true]).Nodup ∧
    calibrate_stereo
        [true, true, true, true, true, true, true, true, true, true,
         false, false, false, false, false, false, false, false, false, false]
        [false, false, false, false, false, true, true, true, true, true,
         true, true, true, true, true, true, true, true, true, true] =
      Except.error ("Not enough synchronized pairs for stereo calibration. Found " ++
        toString (common_indices
          [true, true, true, true, true, true, true, true, true, true,
           false, false, false, false, false, false, false, false, false, false]
          [false, false, false, false, false, true, true, true, true, true,
           true, true, true, true, true, true, true, true, true, true]).length ++
        ", need at least " ++ toString MIN_CALIBRATION_IMAGES) :=
  C7_synchronization_gate _ _ (by decide) (by decide) (by decide) (by decide)

/-! ## Aggregate error statistics -/

/-- A `min`-fold over a list is one of the folded values. -/
lemma foldl_min_mem (l : List ℝ) : ∀ a : ℝ, l.foldl min a ∈ a :: l := by
  induction l with
  | nil => intro a; simp
  | cons h t ih =>
    intro a
    rw [List.foldl_cons]
    rcases List.mem_cons.mp (ih (min a h)) with h1 | h1
    · rw [h1]
      rcases min_choice a h with hm | hm <;> rw [hm]
      · exact List.mem_cons_self _ _
      · exact List.mem_cons_of_mem _ (List.mem_cons_self _ _)
    · exact List.mem_cons_of_mem _ (List.mem_cons_of_mem _ h1)

/-- A `min`-fold over a list is a lower bound of the folded values. -/
lemma foldl_min_le (l : List ℝ) : ∀ a x : ℝ, x ∈ a :: l → l.foldl min a ≤ x := by
  induction l with
  | nil =>
    intro a x hx
    rw [List.mem_singleton] at hx
    subst hx
    simp
  | cons h t ih =>
    intro a x hx
    rw [List.foldl_cons]
    rcases List.mem_cons.mp hx with heq | hx'
    · rw [heq]
      exact le_trans (ih (min a h) _ (List.mem_cons_self _ _)) (min_le_left a h)
    · rcases List.mem_cons.mp hx' with heq' | hx''
      · rw [heq']
        exact le_trans (ih (min a h) _ (List.mem_cons_self _ _)) (min_le_right a h)
      · exact ih (min a h) _ (List.mem_cons_of_mem _ hx'')

/-- A `max`-fold over a list is one of the folded values. -/
lemma foldl_max_mem (l : List ℝ) : ∀ a : ℝ, l.foldl max a ∈ a :: l := by
  induction l with
  | nil => intro a; simp
  | cons h t ih =>
    intro a
    rw [List.foldl_cons]
    rcases List.mem_cons.mp (ih (max a h)) with h1 | h1
    · rw [h1]
      rcases max_choice a h with hm | hm <;> rw [hm]
      · exact List.mem_cons_self _ _
      · exact List.mem_cons_of_mem _ (List.mem_cons_self _ _)
    · exact List.mem_cons_of_mem _ (List.mem_cons_of_mem _ h1)

/-- A `max`-fold over a list is an upper bound of the folded values. -/
lemma foldl_max_ge (l : List ℝ) : ∀ a x : ℝ, x ∈ a :: l → x ≤ l.foldl max a := by
  induction l with
  | nil =>
    intro a x hx
    rw [List.mem_singleton] at hx
    subst hx
    simp
  | cons h t ih =>
    intro a x hx
    rw [List.foldl_cons]
    rcases List.mem_cons.mp hx with heq | hx'
    · rw [heq]
      exact le_trans (le_max_left a h) (ih (max a h) _ (List.mem_cons_self _ _))
    · rcases List.mem_cons.mp hx' with heq' | hx''
      · rw [heq']
        exact le_trans (le_max_right a h) (ih (max a h) _ (List.mem_cons_self _ _))
      · exact ih (max a h) _ (List.mem_cons_of_mem _ hx'')

/-- On a nonempty list `listMin` attains an element and bounds all from below. -/
lemma listMin_spec (l : List ℝ) (hl : l ≠ []) :
    listMin l ∈ l ∧ ∀ x ∈ l, listMin l ≤ x := by
  cases l with
  | nil => exact absurd rfl hl
  | cons h t => exact ⟨foldl_min_mem t h, fun x hx => foldl_min_le t h x hx⟩

/-- On a nonempty list `listMax` attains an element and bounds all from above. -/
lemma listMax_spec (l : List ℝ) (hl : l ≠ []) :
    listMax l ∈ l ∧ ∀ x ∈ l, x ≤ listMax l := by
  cases l with
  | nil => exact absurd rfl hl
  | cons h t => exact ⟨foldl_max_mem t h, fun x hx => foldl_max_ge t h x hx⟩

/-- The mean of a concatenation weighs each part by its size: it is the
size-weighted combination of the per-part means, not the average of the two
means. -/
lemma listMean_append_weighted (xs ys : List ℝ) (hx : xs ≠ []) (hy : ys ≠ []) :
    listMean (xs ++ ys) * ((xs.length : ℝ) + (ys.length : ℝ)) =
      (xs.length : ℝ) * listMean xs + (ys.length : ℝ) * listMean ys := by
  have hx0 : (xs.length : ℝ) ≠ 0 := Nat.cast_ne_zero.mpr (List.length_pos.mpr hx).ne'
  have hy0 : (ys.length : ℝ) ≠ 0 := Nat.cast_ne_zero.mpr (List.length_pos.mpr hy).ne'
  have hxy0 : (xs.length : ℝ) + (ys.length : ℝ) ≠ 0 := by positivity
  simp only [listMean, List.sum_append, List.length_append, Nat.cast_add]
  field_simp

/-- C8: on per-view shape-matched nonempty inputs, `calculate_mean_error`
returns the per-view Euclidean error lists, and its `mean/std/min/max` are
taken over their concatenation — the min and max are attained bounds of the
concatenation, and the mean is the size-weighted combination of the
per-view means (so not an average of per-view averages) — together with
each view's own mean. -/
theorem C8_aggregate_over_concatenation (o1 r1 o2 r2 : List Vec2)
    (h1 : o1.length = r1.length) (h2 : o2.length = r2.length)
    (hn1 : o1 ≠ []) (hn2 : o2 ≠ []) :
    ∃ stats : ErrorStats,
      calculate_mean_error o1 r1 o2 r2 = Except.ok stats ∧
      stats.errors_cam1 = List.zipWith landmark_error o1 r1 ∧
      stats.errors_cam2 = List.zipWith landmark_error o2 r2 ∧
      stats.mean_error = listMean (stats.errors_cam1 ++ stats.errors_cam2) ∧
      stats.std_error = listStd (stats.errors_cam1 ++ stats.errors_cam2) ∧
      stats.min_error = listMin (stats.errors_cam1 ++ stats.errors_cam2) ∧
      stats.max_error = listMax (stats.errors_cam1 ++ stats.errors_cam2) ∧
      stats.cam1_mean = listMean stats.errors_cam1 ∧
      stats.cam2_mean = listMean stats.errors_cam2 ∧
      stats.errors_cam1.length = o1.length ∧
      stats.errors_cam2.length = o2.length ∧
      stats.mean_error * ((stats.errors_cam1.length : ℝ) + (stats.errors_cam2.length : ℝ)) =
        (stats.errors_cam1.length : ℝ) * stats.cam1_mean +
          (stats.errors_cam2.length : ℝ) * stats.cam2_mean ∧
      stats.min_error ∈ stats.errors_cam1 ++ stats.errors_cam2 ∧
      (∀ x ∈ stats.errors_cam1 ++ stats.errors_cam2, stats.min_error ≤ x) ∧
      stats.max_error ∈ stats.errors_cam1 ++ stats.errors_cam2 ∧
      (∀ x ∈ stats.errors_cam1 ++ stats.errors_cam2, x ≤ stats.max_error) := by
  have he1 : calculate_per_landmark_error o1 r1 =
      Except.ok (List.zipWith landmark_error o1 r1) := by
    simp only [calculate_per_landmark_error, h1, ne_eq, not_true_eq_false, if_false]
  have he2 : calculate_per_landmark_error o2 r2 =
      Except.ok (List.zipWith landmark_error o2 r2) := by
    simp only [calculate_per_landmark_error, h2, ne_eq, not_true_eq_false, if_false]
  have hl1 : (List.zipWith landmark_error o1 r1).length = o1.length := by
    rw [List.length_zipWith, h1, min_self]
  have hl2 : (List.zipWith landmark_error o2 r2).length = o2.length := by
    rw [List.length_zipWith, h2, min_self]
  have hz1 : List.zipWith landmark_error o1 r1 ≠ [] := by
    intro hnil
    rw [hnil] at hl1
    exact hn1 (List.length_eq_zero.mp hl1.symm)
  have hz2 : List.zipWith landmark_error o2 r2 ≠ [] := by
    intro hnil
    rw [hnil] at hl2
    exact hn2 (List.length_eq_zero.mp hl2.symm)
  have hznil : List.zipWith landmark_error o1 r1 ++ List.zipWith landmark_error o2 r2 ≠ [] := by
    intro hnil
    exact hz1 (List.append_eq_nil.mp hnil).1
  simp only [calculate_mean_error, he1, he2]
  exact ⟨_, rfl, rfl, rfl, rfl, rfl, rfl, rfl, rfl, rfl, hl1, hl2,
    listMean_append_weighted _ _ hz1 hz2,
    (listMin_spec _ hznil).1, (listMin_spec _ hznil).2,
    (listMax_spec _ hznil).1, (listMax_spec _ hznil).2⟩

/-- Witness for C8 at one 3-4-5 pair in view 1 and two pairs in view 2. -/
theorem C8_aggregate_over_concatenation_witness :
    ∃ stats : ErrorStats,
      calculate_mean_error [Vec2.mk 0 0] [Vec2.mk 3 4]
          [Vec2.mk 0 0, Vec2.mk 0 0] [Vec2.mk 0 0, Vec2.mk 5 12] = Except.ok stats ∧
      stats.errors_cam1 = List.zipWith landmark_error [Vec2.mk 0 0] [Vec2.mk 3 4] ∧
      stats.errors_cam2 = List.zipWith landmark_error [Vec2.mk 0 0, Vec2.mk 0 0]
        [Vec2.mk 0 0, Vec2.mk 5 12] ∧
      stats.mean_error = listMean (stats.errors_cam1 ++ stats.errors_cam2) ∧
      stats.std_error = listStd (stats.errors_cam1 ++ stats.errors_cam2) ∧
      stats.min_error = listMin (stats.errors_cam1 ++ stats.errors_cam2) ∧
      stats.max_error = listMax (stats.errors_cam1 ++ stats.errors_cam2) ∧
      stats.cam1_mean = listMean stats.errors_cam1 ∧
      stats.cam2_mean = listMean stats.errors_cam2 ∧
      stats.errors_cam1.length = 1 ∧
      stats.errors_cam2.length = 2 ∧
      stats.mean_error * ((stats.errors_cam1.length : ℝ) + (stats.errors_cam2.length : ℝ)) =
        (stats.errors_cam1.length : ℝ) * stats.cam1_mean +
          (stats.errors_cam2.length : ℝ) * stats.cam2_mean ∧
      stats.min_error ∈ stats.errors_cam1 ++ stats.errors_cam2 ∧
      (∀ x ∈ stats.errors_cam1 ++ stats.errors_cam2, stats.min_error ≤ x) ∧
      stats.max_error ∈ stats.errors_cam1 ++ stats.errors_cam2 ∧
      (∀ x ∈ stats.errors_cam1 ++ stats.errors_cam2, x ≤ stats.max_error) :=
  C8_aggregate_over_concatenation _ _ _ _ rfl rfl (List.cons_ne_nil _ _)
    (List.cons_ne_nil _ _)

/-- C10: the reported `n_landmarks` is the number of points in one view,
`N`, not the `2 N` concatenated per-point errors. -/
theorem C10_n_landmarks_single_view (o1 r1 o2 r2 : List Vec2) (N : Nat)
    (h1 : o1.length = N) (h1r : r1.length = N)
    (h2 : o2.length = N) (h2r : r2.length = N) (hN : 1 ≤ N) :
    ∃ stats : ErrorStats,
      calculate_mean_error o1 r1 o2 r2 = Except.ok stats ∧
      stats.n_landmarks = N ∧
      (stats.errors_cam1 ++ stats.errors_cam2).length = 2 * N ∧
      stats.n_landmarks ≠ (stats.errors_cam1 ++ stats.errors_cam2).length := by
  have h1' : o1.length = r1.length := by rw [h1, h1r]
  have h2' : o2.length = r2.length := by rw [h2, h2r]
  have he1 : calculate_per_landmark_error o1 r1 =
      Except.ok (List.zipWith landmark_error o1 r1) := by
    simp only [calculate_per_landmark_error, h1', ne_eq, not_true_eq_false, if_false]
  have he2 : calculate_per_landmark_error o2 r2 =
      Except.ok (List.zipWith landmark_error o2 r2) := by
    simp only [calculate_per_landmark_error, h2', ne_eq, not_true_eq_false, if_false]
  have hl1 : (List.zipWith landmark_error o1 r1).length = N := by
    rw [List.length_zipWith, h1, h1r, min_self]
  have hl2 : (List.zipWith landmark_error o2 r2).length = N := by
    rw [List.length_zipWith, h2, h2r, min_self]
  simp only [calculate_mean_error, he1, he2]
  refine ⟨_, rfl, hl1, ?_, ?_⟩
  · dsimp only
    rw [List.length_append, hl1, hl2]
    omega
  · dsimp only
    rw [List.length_append, hl1, hl2]
    omega

/-- Witness for C10 at three landmarks per view. -/
theorem C10_n_landmarks_single_view_witness :
    ∃ stats : ErrorStats,
      calculate_mean_error [Vec2.mk 0 0, Vec2.mk 1 1, Vec2.mk 2 2]
          [Vec2.mk 0 0, Vec2.mk 1 1, Vec2.mk 2 2]
          [Vec2.mk 0 0, Vec2.mk 1 1, Vec2.mk 2 2]
          [Vec2.mk 0 0, Vec2.mk 1 1, Vec2.mk 2 2] = Except.ok stats ∧
      stats.n_landmarks = 3 ∧
      (stats.errors_cam1 ++ stats.errors_cam2).length = 2 * 3 ∧
      stats.n_landmarks ≠ (stats.errors_cam1 ++ stats.errors_cam2).length :=
  C10_n_landmarks_single_view _ _ _ _ 3 rfl rfl rfl rfl (by decide)

end Silo
